import Mathlib

/-!
Shallow embedding of the query/aggregation and toggle logic of the
social-media backend (`models.py`, `routes.py`).  Tables are lists of rows;
each request handler becomes a pure function from a database state and the
request data to a response (status code plus serialized fields) and the
database state after the handler commits.  SQL `count(distinct c)` is
modelled by deduplicating the projected column; `IntegrityError` on commit
is modelled by the condition under which MySQL raises it, namely a violated
unique constraint (`username`, `email` on the `Users` table).
-/

/-- Python `datetime.datetime` value: the `DateTime` columns of the schema.
Comparison is lexicographic on the fields, as in Python and in MySQL. -/
structure PyDateTime where
  year : Nat
  month : Nat
  day : Nat
  hour : Nat
  minute : Nat
  second : Nat
  microsecond : Nat
deriving DecidableEq

/-- Calendar date, the result of SQL `date(created_at)`. -/
structure PyDate where
  year : Nat
  month : Nat
  day : Nat
deriving DecidableEq

/-- Lexicographic order on datetimes (Python / MySQL `DATETIME` comparison). -/
def PyDateTime.le (a b : PyDateTime) : Bool :=
  decide (a.year < b.year) || (a.year == b.year &&
    (decide (a.month < b.month) || (a.month == b.month &&
      (decide (a.day < b.day) || (a.day == b.day &&
        (decide (a.hour < b.hour) || (a.hour == b.hour &&
          (decide (a.minute < b.minute) || (a.minute == b.minute &&
            (decide (a.second < b.second) || (a.second == b.second &&
              decide (a.microsecond ≤ b.microsecond))))))))))))

/-- Lexicographic order on calendar dates. -/
def PyDate.le (a b : PyDate) : Bool :=
  decide (a.year < b.year) || (a.year == b.year &&
    (decide (a.month < b.month) || (a.month == b.month &&
      decide (a.day ≤ b.day))))

/-- Calendar date of a datetime: SQL `date(Post.created_at)`. -/
def PyDateTime.dateOf (d : PyDateTime) : PyDate :=
  { year := d.year, month := d.month, day := d.day }

/-- Python `d.replace(hour=0, minute=0, second=0, microsecond=0)`:
start of the day of `d` (routes.py line 172). -/
def PyDateTime.dayStart (d : PyDateTime) : PyDateTime :=
  { d with hour := 0, minute := 0, second := 0, microsecond := 0 }

/-- Python `d.replace(hour=23, minute=59, second=59, microsecond=999999)`:
end of the day of `d` (routes.py line 181). -/
def PyDateTime.dayEnd (d : PyDateTime) : PyDateTime :=
  { d with hour := 23, minute := 59, second := 59, microsecond := 999999 }

/-- Numeric value of a list of decimal digit characters. -/
def digitsToNat (cs : List Char) : Nat :=
  cs.foldl (fun n c => n * 10 + (c.toNat - 48)) 0

/-- Python `str.isdigit` restricted to ASCII input: nonempty and all
characters are decimal digits. -/
def pyIsdigit (s : String) : Bool :=
  !s.isEmpty && s.toList.all Char.isDigit

/-- Python `int(s)` for a digit string. -/
def pyInt (s : String) : Nat :=
  digitsToNat s.toList

/-- Leap-year rule used by Python `datetime` for validating a day number. -/
def isLeapYear (y : Nat) : Bool :=
  y % 4 == 0 && (y % 100 != 0 || y % 400 == 0)

/-- Number of days in a month, for validating parsed dates. -/
def daysInMonth (y m : Nat) : Nat :=
  if m == 2 then (if isLeapYear y then 29 else 28)
  else if m == 4 || m == 6 || m == 9 || m == 11 then 30
  else 31

/-- Time-of-day suffix of an ISO string: `HH:MM`, optionally `:SS` and a
fractional part of three or six digits.  Returns
(hour, minute, second, microsecond). -/
def parseIsoTime (cs : List Char) : Option (Nat × Nat × Nat × Nat) :=
  match cs with
  | h1 :: h2 :: c1 :: m1 :: m2 :: rest =>
    if h1.isDigit && h2.isDigit && c1 == ':' && m1.isDigit && m2.isDigit then
      let h := digitsToNat [h1, h2]
      let mi := digitsToNat [m1, m2]
      if h ≤ 23 && mi ≤ 59 then
        match rest with
        | [] => some (h, mi, 0, 0)
        | c2 :: s1 :: s2 :: rest2 =>
          if c2 == ':' && s1.isDigit && s2.isDigit then
            let sec := digitsToNat [s1, s2]
            if sec ≤ 59 then
              match rest2 with
              | [] => some (h, mi, sec, 0)
              | c3 :: frac =>
                if c3 == '.' && frac.all Char.isDigit &&
                    (frac.length == 3 || frac.length == 6) then
                  let us := if frac.length == 3 then digitsToNat frac * 1000
                            else digitsToNat frac
                  some (h, mi, sec, us)
                else none
            else none
          else none
        | _ => none
      else none
    else none
  | _ => none

/-- Python `datetime.datetime.fromisoformat` on the formats the endpoint
receives: a zero-padded `YYYY-MM-DD` date with a valid month and day,
optionally followed by a one-character separator and a time of day
(timezone offsets are not modelled).  Any other string raises
`ValueError`, modelled as `none`. -/
def pyFromIsoformat (s : String) : Option PyDateTime :=
  match s.toList with
  | y1 :: y2 :: y3 :: y4 :: c1 :: m1 :: m2 :: c2 :: d1 :: d2 :: rest =>
    if y1.isDigit && y2.isDigit && y3.isDigit && y4.isDigit &&
        c1 == '-' && m1.isDigit && m2.isDigit && c2 == '-' &&
        d1.isDigit && d2.isDigit then
      let y := digitsToNat [y1, y2, y3, y4]
      let mo := digitsToNat [m1, m2]
      let d := digitsToNat [d1, d2]
      if 1 ≤ mo && mo ≤ 12 && 1 ≤ d && d ≤ daysInMonth y mo then
        match rest with
        | [] => some { year := y, month := mo, day := d, hour := 0,
                       minute := 0, second := 0, microsecond := 0 }
        | _ :: timeRest =>
          (parseIsoTime timeRest).map fun t =>
            { year := y, month := mo, day := d, hour := t.1,
              minute := t.2.1, second := t.2.2.1, microsecond := t.2.2.2 }
      else none
    else none
  | _ => none

/-- Row of the `Users` table (models.py).  `created_at` is omitted: no
modelled endpoint reads it. -/
structure User where
  user_id : Nat
  username : String
  name : String
  email : String
  password_hash : String
deriving DecidableEq

/-- Row of the `Posts` table (models.py). -/
structure Post where
  post_id : Nat
  user_id : Nat
  content : String
  created_at : PyDateTime
deriving DecidableEq

/-- Row of the `Comments` table (models.py).  `created_at` is omitted: the
claims under study only count distinct comment ids. -/
structure Comment where
  comment_id : Nat
  post_id : Nat
  user_id : Nat
  content : String
deriving DecidableEq

/-- Row of the `Likes` table (models.py).  `like_id` is the primary key;
there is no uniqueness constraint on (post_id, user_id).  `created_at` is
omitted: no modelled endpoint reads it. -/
structure Like where
  like_id : Nat
  post_id : Nat
  user_id : Nat
deriving DecidableEq

/-- Row of the `Followers` table (models.py).  `created_at` omitted. -/
structure Follower where
  follower_id : Nat
  follower_user_id : Nat
  followed_user_id : Nat
deriving DecidableEq

/-- Database state: the five tables, each a list of rows in insertion
order (`first()` without `order_by` returns the head of the list). -/
structure DB where
  users : List User
  posts : List Post
  comments : List Comment
  likes : List Like
  followers : List Follower
deriving DecidableEq

/-- Next autoincrement value for the `Likes` primary key. -/
def maxLikeId (likes : List Like) : Nat :=
  likes.foldr (fun l m => max l.like_id m) 0

/-- Next autoincrement value for the `Followers` primary key. -/
def maxFollowerId (fs : List Follower) : Nat :=
  fs.foldr (fun f m => max f.follower_id m) 0

/-- Next autoincrement value for the `Users` primary key. -/
def maxUserId (us : List User) : Nat :=
  us.foldr (fun u m => max u.user_id m) 0

/-- The Like rows for a given (post, user) pair. -/
def likesFor (likes : List Like) (pid uid : Nat) : List Like :=
  likes.filter fun l => l.post_id == pid && l.user_id == uid

/-- Response of the like-toggle endpoint. -/
structure LikeResp where
  status : Nat
  message : Option String
  liked : Option Bool
  error : Option String
deriving DecidableEq

/-- Handler `toggle_like` (routes.py lines 242-274): 404 if the post does
not exist; otherwise delete the first Like row matching (post_id, user_id)
if one exists (the ORM delete issues `DELETE ... WHERE like_id = ?`),
else insert a fresh Like row. -/
def toggle_like (db : DB) (uid pid : Nat) : LikeResp × DB :=
  match db.posts.find? fun p => p.post_id == pid with
  | none =>
      ({ status := 404, message := none, liked := none,
         error := some "Post not found" }, db)
  | some _ =>
      match db.likes.find? fun l => l.post_id == pid && l.user_id == uid with
      | some l =>
          ({ status := 200, message := some "Post unliked successfully",
             liked := some false, error := none },
           { db with likes := db.likes.filter fun x => x.like_id != l.like_id })
      | none =>
          ({ status := 201, message := some "Post liked successfully",
             liked := some true, error := none },
           { db with likes := db.likes ++
               [{ like_id := maxLikeId db.likes + 1, post_id := pid,
                  user_id := uid }] })

/-- State after `n` consecutive like-toggles by the same user on the same
post. -/
def toggleLikeN (uid pid : Nat) : Nat → DB → DB
  | 0, db => db
  | n + 1, db => (toggle_like (toggleLikeN uid pid n db) uid pid).2

/-- State after a sequence of like-toggle requests, each a (user, post)
pair, applied one at a time. -/
def applyToggles (db : DB) : List (Nat × Nat) → DB
  | [] => db
  | (uid, pid) :: rest => applyToggles (toggle_like db uid pid).2 rest

/-- Application-level invariant of the `Likes` table: no two rows share
the same (post_id, user_id) pair, i.e. at most one Like per pair. -/
def LikeInvariant (db : DB) : Prop :=
  db.likes.Pairwise fun a b => ¬ (a.post_id = b.post_id ∧ a.user_id = b.user_id)

/-- Response of the follow-toggle endpoint. -/
structure FollowResp where
  status : Nat
  message : Option String
  error : Option String
deriving DecidableEq

/-- Handler `toggle_follow` (routes.py lines 646-682): reject self-follow
with 400 before any check; 404 if the target user does not exist; else
toggle the Follower row for (follower, followed). -/
def toggle_follow (db : DB) (currentUid targetUid : Nat) : FollowResp × DB :=
  if currentUid == targetUid then
    ({ status := 400, message := none,
       error := some "You cannot follow yourself" }, db)
  else
    match db.users.find? fun u => u.user_id == targetUid with
    | none => ({ status := 404, message := none,
                 error := some "User not found" }, db)
    | some _ =>
        match db.followers.find? fun f =>
            f.follower_user_id == currentUid && f.followed_user_id == targetUid with
        | some f =>
            ({ status := 200, message := some "User unfollowed successfully",
               error := none },
             { db with followers :=
                 db.followers.filter fun x => x.follower_id != f.follower_id })
        | none =>
            ({ status := 201, message := some "User followed successfully",
               error := none },
             { db with followers := db.followers ++
                 [{ follower_id := maxFollowerId db.followers + 1,
                    follower_user_id := currentUid,
                    followed_user_id := targetUid }] })

/-- Registration request body fields (routes.py line 42). -/
structure RegisterReq where
  username : String
  name : String
  email : String
  password : String
deriving DecidableEq

/-- Response carrying only a status code and an optional error message. -/
structure SimpleResp where
  status : Nat
  error : Option String
deriving DecidableEq

/-- Whether some existing User row has the given username (the unique
constraint on `Users.username` in models.py). -/
def usernameTaken (db : DB) (u : String) : Bool :=
  db.users.any fun x => x.username == u

/-- Whether some existing User row has the given email (the unique
constraint on `Users.email` in models.py). -/
def emailTaken (db : DB) (e : String) : Bool :=
  db.users.any fun x => x.email == e

/-- Handler `handle_register` (routes.py lines 33-70), after the
content-type and required-fields checks.  The email and password
validators live in `forms.py`, which is not part of the sources; their
verdicts are passed in as booleans, and the bcrypt hash as a string.  The
commit raises `IntegrityError` exactly when the new row violates the
unique constraint on username or email; the handler catches it, rolls
back (state unchanged) and answers 409. -/
def handle_register (db : DB) (r : RegisterReq)
    (emailValid passwordValid : Bool) (pwHash : String) : SimpleResp × DB :=
  if !emailValid then
    ({ status := 400, error := some "Invalid email format" }, db)
  else if !passwordValid then
    ({ status := 400, error := some "Password does not meet requirements" }, db)
  else if usernameTaken db r.username || emailTaken db r.email then
    ({ status := 409, error := some "Username or email already exists" }, db)
  else
    ({ status := 201, error := none },
     { db with users := db.users ++
         [{ user_id := maxUserId db.users + 1, username := r.username,
            name := r.name, email := r.email, password_hash := pwHash }] })

/-- Profile-update request body (routes.py lines 534-555); absent JSON
keys are `none` (Python `data.get` returns `None`). -/
structure UpdateReq where
  username : Option String
  email : Option String
  name : Option String
deriving DecidableEq

/-- Handler `update_user_profile` (routes.py lines 523-570): 404 if the
user does not exist; a requested new username (nonempty, different from
the current one) that another row already has answers 400 before any
write; likewise for email; otherwise the row is updated and committed.
A falsy (empty) string behaves like an absent key. -/
def update_user_profile (db : DB) (uid : Nat) (r : UpdateReq) : SimpleResp × DB :=
  match db.users.find? fun u => u.user_id == uid with
  | none => ({ status := 404, error := some "User not found" }, db)
  | some user =>
      let wantU : Option String :=
        match r.username with
        | some nu => if nu != "" && nu != user.username then some nu else none
        | none => none
      if (match wantU with
          | some nu => usernameTaken db nu
          | none => false) then
        ({ status := 400, error := some "Username already taken" }, db)
      else
        let wantE : Option String :=
          match r.email with
          | some ne => if ne != "" && ne != user.email then some ne else none
          | none => none
        if (match wantE with
            | some ne => emailTaken db ne
            | none => false) then
          ({ status := 400, error := some "Email already registered" }, db)
        else
          let user2 : User :=
            { user with
              username := wantU.getD user.username,
              email := wantE.getD user.email,
              name := match r.name with
                      | some n => if n != "" then n else user.name
                      | none => user.name }
          ({ status := 200, error := none },
           { db with users := db.users.map fun u =>
               if u.user_id == uid then user2 else u })

/-- SQL `count(distinct Like.like_id)` over the rows joined to one post:
the number of Like rows of that post, counted by distinct primary key. -/
def postLikesCount (db : DB) (pid : Nat) : Nat :=
  (((db.likes.filter fun l => l.post_id == pid).map fun l => l.like_id).dedup).length

/-- SQL `count(distinct Comment.comment_id)` over the rows joined to one
post. -/
def postCommentsCount (db : DB) (pid : Nat) : Nat :=
  (((db.comments.filter fun c => c.post_id == pid).map fun c => c.comment_id).dedup).length

/-- Whether the first character list starts with the second. -/
def listStartsWith : List Char → List Char → Bool
  | _, [] => true
  | [], _ :: _ => false
  | h :: hs, n :: ns => h == n && listStartsWith hs ns

/-- Whether the second character list occurs contiguously in the first. -/
def listContainsSeq : List Char → List Char → Bool
  | [], needle => needle.isEmpty
  | c :: rest, needle => listStartsWith (c :: rest) needle || listContainsSeq rest needle

/-- ASCII-case-insensitive substring test: SQL `ilike` with a pattern
wrapped in percent wildcards (the user-supplied part is taken literally). -/
def containsCI (hay needle : String) : Bool :=
  listContainsSeq (hay.toLower.toList) (needle.toLower.toList)

/-- Query parameters of the discover endpoint (routes.py lines 153-156);
absent parameters are `none`. -/
structure DiscoverParams where
  date_from : Option String
  date_to : Option String
  min_likes : Option String
  author : Option String
deriving DecidableEq

/-- Joined, grouped row of the discover query: one post with its author
and its distinct like/comment counts. -/
structure DiscoverRow where
  post : Post
  author : User
  likes_count : Nat
  comments_count : Nat
deriving DecidableEq

/-- Lower-bound date filter of the discover query (routes.py lines
168-175).  `datetime.fromisoformat` is standard-library code — an
external collaborator like the validators of the register handler — so
its verdict is a parameter.  The filter is applied only when the
parameter is truthy and the parse succeeds, the parsed datetime reset to
the start of its day; the `ValueError` of a failed parse is swallowed and
the filter skipped. -/
def applyDateFrom (fromiso : String → Option PyDateTime)
    (param : Option String) (l : List (Post × User)) : List (Post × User) :=
  match param with
  | none => l
  | some s =>
      if s != "" then
        match fromiso s with
        | some d => l.filter fun pu => PyDateTime.le d.dayStart pu.1.created_at
        | none => l
      else l

/-- Upper-bound date filter of the discover query (routes.py lines
177-184): as the lower bound, with the parsed datetime moved to the end
of its day. -/
def applyDateTo (fromiso : String → Option PyDateTime)
    (param : Option String) (l : List (Post × User)) : List (Post × User) :=
  match param with
  | none => l
  | some s =>
      if s != "" then
        match fromiso s with
        | some d => l.filter fun pu => PyDateTime.le pu.1.created_at d.dayEnd
        | none => l
      else l

/-- Author-username filter (routes.py lines 189-190): case-insensitive
substring match, applied when the parameter is truthy. -/
def applyAuthor (param : Option String) (l : List (Post × User)) :
    List (Post × User) :=
  match param with
  | none => l
  | some a => if a != "" then l.filter fun pu => containsCI pu.2.username a else l

/-- HAVING filter on the aggregated like count (routes.py lines 186-187).
`str.isdigit` and `int` are standard-library externals whose verdicts are
parameters.  When the parameter is truthy and the isdigit guard accepts
it, `int` is evaluated inside the handler's broad try block; a
`ValueError` there (`toint` returning `none`) escapes the filter step,
modelled as `none` for the whole step. -/
def applyMinLikes (isdig : String → Bool) (toint : String → Option Nat)
    (param : Option String) (l : List DiscoverRow) : Option (List DiscoverRow) :=
  match param with
  | none => some l
  | some s =>
      if s != "" && isdig s then
        match toint s with
        | some n => some (l.filter fun r => n ≤ r.likes_count)
        | none => none
      else some l

/-- Handler `get_discover_posts` (routes.py lines 146-240) over explicit
standard-library collaborators (ISO parser, isdigit, int): join each post
to its author (inner join on the Users primary key), apply the optional
WHERE filters, group by post computing distinct like/comment counts,
apply the optional HAVING filter — whose `int` call may raise, reaching
the broad except handler (500, generic error) — order by post creation
time descending, keep 20 rows and answer 200.  The per-row serialization
of comments and of the requesting user's own like is not modelled. -/
def get_discover_posts_with (fromiso : String → Option PyDateTime)
    (isdig : String → Bool) (toint : String → Option Nat)
    (db : DB) (p : DiscoverParams) : Nat × List DiscoverRow :=
  let base := db.posts.filterMap fun post =>
    (db.users.find? fun u => u.user_id == post.user_id).map fun u => (post, u)
  let base := applyAuthor p.author
    (applyDateTo fromiso p.date_to (applyDateFrom fromiso p.date_from base))
  let rows := base.map fun pu =>
    { post := pu.1, author := pu.2,
      likes_count := postLikesCount db pu.1.post_id,
      comments_count := postCommentsCount db pu.1.post_id }
  match applyMinLikes isdig toint p.min_likes rows with
  | none => (500, [])
  | some rows2 =>
      (200, (rows2.insertionSort fun a b =>
        PyDateTime.le b.post.created_at a.post.created_at = true).take 20)

/-- The discover handler with the reference standard-library model: the
ISO parser of this development, ASCII `isdigit`, and `int`, which
succeeds with the numeric value on every ASCII digit string the
reference guard admits. -/
def get_discover_posts (db : DB) (p : DiscoverParams) : Nat × List DiscoverRow :=
  get_discover_posts_with pyFromIsoformat pyIsdigit (fun s => some (pyInt s)) db p

/-- Row of the top-posts query: post, author, counts and the engagement
score label. -/
structure TopRow where
  post : Post
  author : User
  likes_count : Nat
  comments_count : Nat
  engagement_score : Nat
deriving DecidableEq

/-- Handler `get_top_posts` (routes.py lines 311-353): join each post to
its author, group by post, compute distinct like/comment counts and their
sum as `engagement_score`, order by the score descending, keep 10 rows. -/
def get_top_posts (db : DB) : Nat × List TopRow :=
  let rows := db.posts.filterMap fun post =>
    (db.users.find? fun u => u.user_id == post.user_id).map fun u =>
      { post := post, author := u,
        likes_count := postLikesCount db post.post_id,
        comments_count := postCommentsCount db post.post_id,
        engagement_score := postLikesCount db post.post_id +
          postCommentsCount db post.post_id : TopRow }
  let sorted := rows.insertionSort fun a b =>
    b.engagement_score ≤ a.engagement_score
  (200, sorted.take 10)

/-- Serialized row of the engagement-by-date endpoint. -/
structure EngagementRow where
  date : PyDate
  posts_count : Nat
  likes_count : Nat
  comments_count : Nat
deriving DecidableEq

/-- The requesting user's posts created on a given calendar date. -/
def userPostsOn (db : DB) (uid : Nat) (d : PyDate) : List Post :=
  db.posts.filter fun p => p.user_id == uid && p.created_at.dateOf == d

/-- Aggregates of one group of the engagement-by-date query: distinct
posts, distinct likes and distinct comments joined to the user's posts of
that date. -/
def engagementRowFor (db : DB) (uid : Nat) (d : PyDate) : EngagementRow :=
  let ps := userPostsOn db uid d
  { date := d,
    posts_count := ((ps.map fun p => p.post_id).dedup).length,
    likes_count := (((db.likes.filter fun l =>
      ps.any fun p => p.post_id == l.post_id).map fun l => l.like_id).dedup).length,
    comments_count := (((db.comments.filter fun c =>
      ps.any fun p => p.post_id == c.post_id).map fun c => c.comment_id).dedup).length }

/-- Handler `get_engagement_by_date` (routes.py lines 276-309): restrict
to the requesting user's posts, group by calendar date of creation, count
distinct posts/likes/comments per group, order by date descending, keep
30 rows. -/
def get_engagement_by_date (db : DB) (uid : Nat) : Nat × List EngagementRow :=
  let dates := ((db.posts.filter fun p => p.user_id == uid).map fun p =>
    p.created_at.dateOf).dedup
  let sortedDates := dates.insertionSort fun a b => PyDate.le b a = true
  (200, (sortedDates.take 30).map fun d => engagementRowFor db uid d)

/-- Serialized response of the stats endpoint.  The averages are rational:
MySQL division of two counts; `float(x or 0)` turns the NULL produced by
a zero divisor into 0. -/
structure StatsResp where
  status : Nat
  total_posts : Nat
  total_likes : Nat
  total_comments : Nat
  average_likes_per_post : Rat
  average_comments_per_post : Rat
deriving DecidableEq

/-- Handler `get_post_stats` (routes.py lines 403-433): one aggregate row
over the user's posts left-joined to likes and comments; the divisor is
wrapped in `nullif(count, 0)`, so with zero posts the averages are NULL
rather than a division error, and the serializer maps NULL to 0. -/
def get_post_stats (db : DB) (uid : Nat) : StatsResp :=
  let userPosts := db.posts.filter fun p => p.user_id == uid
  let total_posts := ((userPosts.map fun p => p.post_id).dedup).length
  let total_likes := (((db.likes.filter fun l =>
    userPosts.any fun p => p.post_id == l.post_id).map fun l => l.like_id).dedup).length
  let total_comments := (((db.comments.filter fun c =>
    userPosts.any fun p => p.post_id == c.post_id).map fun c => c.comment_id).dedup).length
  let avgLikes : Option Rat :=
    if total_posts == 0 then none
    else some ((total_likes : Rat) / (total_posts : Rat))
  let avgComments : Option Rat :=
    if total_posts == 0 then none
    else some ((total_comments : Rat) / (total_posts : Rat))
  { status := 200, total_posts := total_posts, total_likes := total_likes,
    total_comments := total_comments,
    average_likes_per_post := avgLikes.getD 0,
    average_comments_per_post := avgComments.getD 0 }

/-- Empty database, the state before any registration. -/
def dbEmpty : DB :=
  { users := [], posts := [], comments := [], likes := [], followers := [] }

/-- Sample user for concrete evaluations. -/
def alice : User :=
  { user_id := 1, username := "alice", name := "Alice",
    email := "alice@example.com", password_hash := "h1" }

/-- Second sample user. -/
def bob : User :=
  { user_id := 2, username := "bob", name := "Bob",
    email := "bob@example.com", password_hash := "h2" }

/-- Sample post by the first user. -/
def post1 : Post :=
  { post_id := 1, user_id := 1, content := "hello",
    created_at := { year := 2024, month := 1, day := 15, hour := 12,
                    minute := 0, second := 0, microsecond := 0 } }

/-- Sample database: two users, one post, one like on it by the second
user. -/
def dbSample : DB :=
  { users := [alice, bob], posts := [post1], comments := [],
    likes := [{ like_id := 1, post_id := 1, user_id := 2 }], followers := [] }

/-- Claim C7: a follow-toggle request whose requester equals the target
answers 400 and leaves the database, in particular the Follower table,
unchanged. -/
theorem c7_self_follow_rejected (db : DB) (uid : Nat) :
    (toggle_follow db uid uid).1.status = 400 ∧
    (toggle_follow db uid uid).1.error = some "You cannot follow yourself" ∧
    (toggle_follow db uid uid).2 = db := by
  simp [toggle_follow]

/-- Claim C9: a like-toggle request for a post id matching no Post row
answers 404 with the error message and leaves the database, in particular
the Like table, unchanged. -/
theorem c9_like_missing_post (db : DB) (uid pid : Nat)
    (h : db.posts.find? (fun p => p.post_id == pid) = none) :
    (toggle_like db uid pid).1.status = 404 ∧
    (toggle_like db uid pid).1.error = some "Post not found" ∧
    (toggle_like db uid pid).2 = db := by
  simp [toggle_like, h]

/-- Concrete instance of claim C9: toggling a like on absent post 99. -/
theorem c9_like_missing_post_witness :
    (toggle_like dbSample 1 99).1.status = 404 ∧
    (toggle_like dbSample 1 99).1.error = some "Post not found" ∧
    (toggle_like dbSample 1 99).2 = dbSample :=
  c9_like_missing_post dbSample 1 99 (by decide)

/-- Claim C5: the stats endpoint for a user with zero posts answers 200
(the `nullif` guard prevents a division error) with both averages 0. -/
theorem c5_stats_zero_posts (db : DB) (uid : Nat)
    (h : db.posts.filter (fun p => p.user_id == uid) = []) :
    (get_post_stats db uid).status = 200 ∧
    (get_post_stats db uid).total_posts = 0 ∧
    (get_post_stats db uid).average_likes_per_post = 0 ∧
    (get_post_stats db uid).average_comments_per_post = 0 := by
  simp [get_post_stats, h]

/-- Concrete instance of claim C5: stats for user 5, who has no posts. -/
theorem c5_stats_zero_posts_witness :
    (get_post_stats dbSample 5).status = 200 ∧
    (get_post_stats dbSample 5).total_posts = 0 ∧
    (get_post_stats dbSample 5).average_likes_per_post = 0 ∧
    (get_post_stats dbSample 5).average_comments_per_post = 0 :=
  c5_stats_zero_posts dbSample 5 (by decide)

/-- Claim C6 counterexample: updating user 1's profile to the username of
user 2 is an operation that writes a User row and hits a duplicate
username, yet the response status is 400, not 409 (the handler pre-checks
uniqueness with a query instead of catching the storage violation); the
stored state is unchanged. -/
theorem c6_update_duplicate_not_409 :
    (update_user_profile dbSample 1
      { username := some "bob", email := none, name := none }).1.status = 400 ∧
    (update_user_profile dbSample 1
      { username := some "bob", email := none, name := none }).1.status ≠ 409 ∧
    (update_user_profile dbSample 1
      { username := some "bob", email := none, name := none }).2 = dbSample := by
  decide

/-- Claim C6 as amended: registration catches the uniqueness violation on
username or email, rolls back (state unchanged) and answers 409, while
profile update pre-checks uniqueness with a query and answers 400, not
409, for a duplicate username or email, also leaving the stored state
unchanged. -/
theorem c6_duplicate_user_writes (db : DB) (r : RegisterReq) (pw : String)
    (db2 : DB) (uid2 : Nat) (ru : UpdateReq) (u : User) (nu : String)
    (db3 : DB) (uid3 : Nat) (ru3 : UpdateReq) (w : User) (ne : String)
    (hreg : (usernameTaken db r.username || emailTaken db r.email) = true)
    (hu : db2.users.find? (fun x => x.user_id == uid2) = some u)
    (hru : ru.username = some nu) (hnu1 : nu ≠ "") (hnu2 : nu ≠ u.username)
    (htaken : usernameTaken db2 nu = true)
    (hw : db3.users.find? (fun x => x.user_id == uid3) = some w)
    (hru3 : ru3.username = none)
    (hre : ru3.email = some ne) (hne1 : ne ≠ "") (hne2 : ne ≠ w.email)
    (hetaken : emailTaken db3 ne = true) :
    ((handle_register db r true true pw).1.status = 409 ∧
     (handle_register db r true true pw).2 = db) ∧
    ((update_user_profile db2 uid2 ru).1.status = 400 ∧
     (update_user_profile db2 uid2 ru).2 = db2) ∧
    ((update_user_profile db3 uid3 ru3).1.status = 400 ∧
     (update_user_profile db3 uid3 ru3).2 = db3) := by
  refine ⟨?_, ?_, ?_⟩
  · simp [handle_register, hreg]
  · simp [update_user_profile, hu, hru, hnu1, hnu2, htaken]
  · simp [update_user_profile, hw, hru3, hre, hne1, hne2, hetaken]

/-- Concrete instance of the amended claim C6: registering a second
"alice" answers 409 with no state change; updating user 1's username to
"bob" or email to the email of "bob" answers 400 with no state change. -/
theorem c6_duplicate_user_writes_witness :
    ((handle_register dbSample
        { username := "alice", name := "A", email := "new@example.com",
          password := "pw" } true true "h3").1.status = 409 ∧
     (handle_register dbSample
        { username := "alice", name := "A", email := "new@example.com",
          password := "pw" } true true "h3").2 = dbSample) ∧
    ((update_user_profile dbSample 1
        { username := some "bob", email := none, name := none }).1.status = 400 ∧
     (update_user_profile dbSample 1
        { username := some "bob", email := none, name := none }).2 = dbSample) ∧
    ((update_user_profile dbSample 1
        { username := none, email := some "bob@example.com", name := none }).1.status = 400 ∧
     (update_user_profile dbSample 1
        { username := none, email := some "bob@example.com", name := none }).2 = dbSample) :=
  c6_duplicate_user_writes dbSample
    { username := "alice", name := "A", email := "new@example.com", password := "pw" }
    "h3" dbSample 1 { username := some "bob", email := none, name := none } alice "bob"
    dbSample 1 { username := none, email := some "bob@example.com", name := none }
    alice "bob@example.com"
    (by decide) (by decide) rfl (by decide) (by decide) (by decide)
    (by decide) rfl rfl (by decide) (by decide) (by decide)

/-- The Like row inserted by the like branch of `toggle_like`: fresh
autoincrement key, the toggled post and user. -/
def freshLike (likes : List Like) (pid uid : Nat) : Like :=
  { like_id := maxLikeId likes + 1, post_id := pid, user_id := uid }

/-- Every row key is bounded by the running autoincrement maximum. -/
theorem like_id_le_maxLikeId {likes : List Like} {l : Like} (h : l ∈ likes) :
    l.like_id ≤ maxLikeId likes := by
  induction likes with
  | nil => cases h
  | cons a as ih =>
    rcases List.mem_cons.mp h with h1 | h2
    · subst h1; exact le_max_left _ _
    · exact le_trans (ih h2) (le_max_right _ _)

/-- The existence pre-check of `toggle_like` agrees with emptiness of the
rows for the pair. -/
theorem likesFor_eq_nil_iff_find (likes : List Like) (pid uid : Nat) :
    likesFor likes pid uid = [] ↔
      likes.find? (fun l => l.post_id == pid && l.user_id == uid) = none := by
  simp [likesFor, List.filter_eq_nil_iff, List.find?_eq_none]

/-- Evaluation of the like branch: post present, no prior like. -/
theorem toggle_like_insert (db : DB) (uid pid : Nat) (p : Post)
    (hp : db.posts.find? (fun q => q.post_id == pid) = some p)
    (h0 : db.likes.find? (fun l => l.post_id == pid && l.user_id == uid) = none) :
    toggle_like db uid pid =
      ({ status := 201, message := some "Post liked successfully",
         liked := some true, error := none },
       { db with likes := db.likes ++ [freshLike db.likes pid uid] }) := by
  simp [toggle_like, hp, h0, freshLike]

/-- Evaluation of the unlike branch on the state the like branch just
produced: the fresh row is the first match, and deleting it by primary
key restores the original Like table. -/
theorem toggle_like_delete_fresh (db : DB) (uid pid : Nat) (p : Post)
    (hp : db.posts.find? (fun q => q.post_id == pid) = some p)
    (h0 : db.likes.find? (fun l => l.post_id == pid && l.user_id == uid) = none) :
    toggle_like { db with likes := db.likes ++ [freshLike db.likes pid uid] } uid pid =
      ({ status := 200, message := some "Post unliked successfully",
         liked := some false, error := none }, db) := by
  have hfresh : ((freshLike db.likes pid uid).post_id == pid &&
      (freshLike db.likes pid uid).user_id == uid) = true := by
    simp [freshLike]
  have hkeep : List.filter (fun x => x.like_id != maxLikeId db.likes + 1) db.likes = db.likes := by
    rw [List.filter_eq_self]
    intro l hl
    have hle := like_id_le_maxLikeId hl
    simp only [bne_iff_ne, ne_eq]
    omega
  simp [toggle_like, hp, List.find?_append, h0, hfresh, List.filter_append,
        hkeep, freshLike]

/-- Parity of the state after any number of consecutive toggles by one
user on one post, starting from a state with no like for the pair. -/
theorem toggleLikeN_closed (db : DB) (uid pid : Nat) (p : Post)
    (hp : db.posts.find? (fun q => q.post_id == pid) = some p)
    (h0 : db.likes.find? (fun l => l.post_id == pid && l.user_id == uid) = none) :
    ∀ n, toggleLikeN uid pid n db =
      if n % 2 = 0 then db
      else { db with likes := db.likes ++ [freshLike db.likes pid uid] } := by
  intro n
  induction n with
  | zero => simp [toggleLikeN]
  | succ k ih =>
    simp only [toggleLikeN, ih]
    by_cases hk : k % 2 = 0
    · rw [if_pos hk, toggle_like_insert db uid pid p hp h0, if_neg (by omega)]
    · rw [if_neg hk, toggle_like_delete_fresh db uid pid p hp h0, if_pos (by omega)]

/-- Claim C1: on an existing post, starting with no Like row for the
pair, one toggle appends exactly the one fresh row and reports
liked=true; a second toggle deletes that row, restoring the original
state, and reports liked=false; and after any number N of consecutive
toggles the Like row for the pair is present exactly when N is odd. -/
theorem c1_like_toggle_parity (db : DB) (uid pid : Nat) (p : Post)
    (hp : db.posts.find? (fun q => q.post_id == pid) = some p)
    (h0 : likesFor db.likes pid uid = []) :
    ((toggle_like db uid pid).1.liked = some true ∧
     (toggle_like db uid pid).2.likes = db.likes ++ [freshLike db.likes pid uid] ∧
     likesFor (toggle_like db uid pid).2.likes pid uid = [freshLike db.likes pid uid]) ∧
    ((toggle_like (toggle_like db uid pid).2 uid pid).1.liked = some false ∧
     (toggle_like (toggle_like db uid pid).2 uid pid).2 = db) ∧
    (∀ n, likesFor (toggleLikeN uid pid n db).likes pid uid ≠ [] ↔ n % 2 = 1) := by
  have hf := (likesFor_eq_nil_iff_find db.likes pid uid).mp h0
  have hins := toggle_like_insert db uid pid p hp hf
  have hdel := toggle_like_delete_fresh db uid pid p hp hf
  have happ : likesFor (db.likes ++ [freshLike db.likes pid uid]) pid uid =
      [freshLike db.likes pid uid] := by
    simp only [likesFor] at h0 ⊢
    simp [List.filter_append, h0, freshLike]
  refine ⟨?_, ?_, ?_⟩
  · rw [hins]
    exact ⟨rfl, rfl, happ⟩
  · rw [hins, hdel]
    exact ⟨rfl, rfl⟩
  · intro n
    rw [toggleLikeN_closed db uid pid p hp hf n]
    rcases Nat.mod_two_eq_zero_or_one n with hk | hk
    · rw [if_pos hk]
      simp [h0, hk]
    · rw [if_neg (by omega)]
      simp [happ, hk]

/-- Concrete instance of claim C1: user 1 toggling post 1 of the sample
database once, twice, and five times. -/
theorem c1_like_toggle_parity_witness :
    (toggle_like dbSample 1 1).1.liked = some true ∧
    (toggle_like (toggle_like dbSample 1 1).2 1 1).1.liked = some false ∧
    (toggle_like (toggle_like dbSample 1 1).2 1 1).2 = dbSample ∧
    likesFor (toggleLikeN 1 1 5 dbSample).likes 1 1 ≠ [] :=
  have h := c1_like_toggle_parity dbSample 1 1 post1 (by decide) (by decide)
  ⟨h.1.1, h.2.1.1, h.2.1.2, (h.2.2 5).mpr (by decide)⟩

/-- One like-toggle preserves the at-most-one-like-per-pair invariant. -/
theorem toggle_like_preserves_inv (db : DB) (uid pid : Nat)
    (h : LikeInvariant db) : LikeInvariant (toggle_like db uid pid).2 := by
  rcases hfp : db.posts.find? (fun p => p.post_id == pid) with _ | p
  · simp only [toggle_like, hfp]
    exact h
  · rcases hfl : db.likes.find? (fun l => l.post_id == pid && l.user_id == uid) with _ | l
    · simp only [toggle_like, hfp, hfl, LikeInvariant] at h ⊢
      rw [List.pairwise_append]
      refine ⟨h, by simp, ?_⟩
      intro a ha b hb
      simp only [List.mem_singleton] at hb
      subst hb
      have hna := List.find?_eq_none.mp hfl a ha
      simp only [Bool.and_eq_true, beq_iff_eq, not_and] at hna
      simp only [freshLike, not_and]
      intro hpost huser
      exact (hna hpost) huser
    · simp only [toggle_like, hfp, hfl, LikeInvariant] at h ⊢
      exact List.Pairwise.sublist (List.filter_sublist _) h

/-- Claim C2: the at-most-one-like-per-pair invariant is preserved by any
sequence of like-toggle requests applied one at a time. -/
theorem c2_like_invariant_sequences (db : DB) (h : LikeInvariant db)
    (reqs : List (Nat × Nat)) : LikeInvariant (applyToggles db reqs) := by
  induction reqs generalizing db with
  | nil => exact h
  | cons r rest ih =>
    rcases r with ⟨uid, pid⟩
    simp only [applyToggles]
    exact ih _ (toggle_like_preserves_inv db uid pid h)

instance (db : DB) : Decidable (LikeInvariant db) :=
  List.instDecidablePairwise db.likes

/-- Concrete instance of claim C2: a sample state satisfying the
invariant still satisfies it after three toggle requests. -/
theorem c2_like_invariant_sequences_witness :
    LikeInvariant dbSample ∧
    LikeInvariant (applyToggles dbSample [(1, 1), (2, 1), (1, 1)]) :=
  ⟨by decide, c2_like_invariant_sequences dbSample (by decide) [(1, 1), (2, 1), (1, 1)]⟩

instance : IsTotal TopRow fun a b => b.engagement_score ≤ a.engagement_score :=
  ⟨fun a b => Nat.le_total b.engagement_score a.engagement_score⟩

instance : IsTrans TopRow fun a b => b.engagement_score ≤ a.engagement_score :=
  ⟨fun _ _ _ h1 h2 => le_trans h2 h1⟩

/-- Claim C4: every row of the top-posts response carries an engagement
score equal to the post's distinct like count plus its distinct comment
count, the rows are ordered with non-increasing score, and at most 10
rows are returned. -/
theorem c4_top_posts_ordered (db : DB) :
    (get_top_posts db).1 = 200 ∧
    (get_top_posts db).2.length ≤ 10 ∧
    List.Sorted (fun a b => b.engagement_score ≤ a.engagement_score) (get_top_posts db).2 ∧
    ∀ r ∈ (get_top_posts db).2,
      r.engagement_score = postLikesCount db r.post.post_id + postCommentsCount db r.post.post_id ∧
      r.likes_count = postLikesCount db r.post.post_id ∧
      r.comments_count = postCommentsCount db r.post.post_id := by
  refine ⟨rfl, ?_, ?_, ?_⟩
  · simp only [get_top_posts, List.length_take]
    exact Nat.min_le_left _ _
  · exact List.Pairwise.sublist (List.take_sublist _ _) (List.sorted_insertionSort _ _)
  · intro r hr
    simp only [get_top_posts] at hr
    have hr2 := ((List.perm_insertionSort _ _).mem_iff).mp ((List.take_sublist _ _).subset hr)
    simp only [List.mem_filterMap, Option.map_eq_some'] at hr2
    rcases hr2 with ⟨post, hpost, u, hu, hmk⟩
    subst hmk
    exact ⟨rfl, rfl, rfl⟩

/-- Totality of the calendar-date order. -/
theorem PyDate.le_total (a b : PyDate) : PyDate.le a b = true ∨ PyDate.le b a = true := by
  simp only [PyDate.le, Bool.or_eq_true, Bool.and_eq_true, decide_eq_true_eq, beq_iff_eq]
  omega

/-- Transitivity of the calendar-date order. -/
theorem PyDate.le_trans (a b c : PyDate) (h1 : PyDate.le a b = true)
    (h2 : PyDate.le b c = true) : PyDate.le a c = true := by
  simp only [PyDate.le, Bool.or_eq_true, Bool.and_eq_true, decide_eq_true_eq, beq_iff_eq] at *
  omega

instance : IsTotal PyDate fun a b => PyDate.le b a = true :=
  ⟨fun a b => PyDate.le_total b a⟩

instance : IsTrans PyDate fun a b => PyDate.le b a = true :=
  ⟨fun a b c h1 h2 => PyDate.le_trans c b a h2 h1⟩

/-- Claim C8: every row of the engagement-by-date response is the group
of a calendar date on which the requesting user created a post, and its
counts are the distinct posts, likes and comments attached to exactly
that user's posts of that date; at most 30 rows, dates descending. -/
theorem c8_engagement_by_date (db : DB) (uid : Nat) :
    (get_engagement_by_date db uid).1 = 200 ∧
    (get_engagement_by_date db uid).2.length ≤ 30 ∧
    List.Sorted (fun a b => PyDate.le b.date a.date = true) (get_engagement_by_date db uid).2 ∧
    ∀ r ∈ (get_engagement_by_date db uid).2,
      (∃ q ∈ db.posts, q.user_id = uid ∧ q.created_at.dateOf = r.date) ∧
      r.posts_count = (((userPostsOn db uid r.date).map fun q => q.post_id).dedup).length ∧
      r.likes_count = (((db.likes.filter fun l =>
        (userPostsOn db uid r.date).any fun q => q.post_id == l.post_id).map fun l =>
          l.like_id).dedup).length ∧
      r.comments_count = (((db.comments.filter fun c =>
        (userPostsOn db uid r.date).any fun q => q.post_id == c.post_id).map fun c =>
          c.comment_id).dedup).length := by
  refine ⟨rfl, ?_, ?_, ?_⟩
  · simp only [get_engagement_by_date, List.length_map, List.length_take]
    exact Nat.min_le_left _ _
  · exact List.Pairwise.map _ (fun a b h => h)
      (List.Pairwise.sublist (List.take_sublist _ _)
        (List.sorted_insertionSort (fun a b => PyDate.le b a = true) _))
  · intro r hr
    simp only [get_engagement_by_date, List.mem_map] at hr
    rcases hr with ⟨d, hd, hmk⟩
    subst hmk
    have hd2 := ((List.perm_insertionSort _ _).mem_iff).mp ((List.take_sublist _ _).subset hd)
    rw [List.mem_dedup] at hd2
    simp only [List.mem_map, List.mem_filter, beq_iff_eq] at hd2
    rcases hd2 with ⟨q, ⟨hq1, hq2⟩, hq3⟩
    exact ⟨⟨q, hq1, hq2, hq3⟩, rfl, rfl, rfl⟩

/-- A string that parses as an ISO datetime is truthy (nonempty). -/
theorem pyFromIsoformat_ne_empty {s : String} {d : PyDateTime}
    (h : pyFromIsoformat s = some d) : s ≠ "" := by
  intro he
  subst he
  rw [show pyFromIsoformat "" = none from rfl] at h
  cases h

/-- A digit string is truthy (nonempty). -/
theorem pyIsdigit_ne_empty {s : String} (h : pyIsdigit s = true) : s ≠ "" := by
  intro he
  subst he
  rw [show pyIsdigit "" = false from rfl] at h
  cases h

/-- The lower-bound date filter only removes rows, whatever the parser
verdict. -/
theorem applyDateFrom_subset (fromiso : String → Option PyDateTime)
    (param : Option String) (l : List (Post × User)) :
    applyDateFrom fromiso param l ⊆ l := by
  rcases param with _ | s
  · exact fun a ha => ha
  · simp only [applyDateFrom]
    split
    · split
      · exact (List.filter_sublist _).subset
      · exact fun a ha => ha
    · exact fun a ha => ha

/-- The upper-bound date filter only removes rows, whatever the parser
verdict. -/
theorem applyDateTo_subset (fromiso : String → Option PyDateTime)
    (param : Option String) (l : List (Post × User)) :
    applyDateTo fromiso param l ⊆ l := by
  rcases param with _ | s
  · exact fun a ha => ha
  · simp only [applyDateTo]
    split
    · split
      · exact (List.filter_sublist _).subset
      · exact fun a ha => ha
    · exact fun a ha => ha

/-- The author filter only removes rows. -/
theorem applyAuthor_subset (param : Option String) (l : List (Post × User)) :
    applyAuthor param l ⊆ l := by
  rcases param with _ | s
  · exact fun a ha => ha
  · simp only [applyAuthor]
    split
    · exact (List.filter_sublist _).subset
    · exact fun a ha => ha

/-- When the minimum-likes step succeeds, it only removes rows. -/
theorem applyMinLikes_some_subset (isdig : String → Bool)
    (toint : String → Option Nat) (param : Option String)
    {l rows2 : List DiscoverRow}
    (h : applyMinLikes isdig toint param l = some rows2) : rows2 ⊆ l := by
  rcases param with _ | s
  · simp only [applyMinLikes, Option.some.injEq] at h
    subst h
    exact fun a ha => ha
  · simp only [applyMinLikes] at h
    split at h
    · split at h
      · simp only [Option.some.injEq] at h
        subst h
        exact (List.filter_sublist _).subset
      · cases h
    · simp only [Option.some.injEq] at h
      subst h
      exact fun a ha => ha

/-- Rows surviving an applied lower-bound filter were created at or after
the start of the bound's day. -/
theorem mem_applyDateFrom {fromiso : String → Option PyDateTime} {s : String}
    {d : PyDateTime} (hp : fromiso s = some d) (hne : s ≠ "")
    (l : List (Post × User)) {pu : Post × User}
    (h : pu ∈ applyDateFrom fromiso (some s) l) :
    PyDateTime.le d.dayStart pu.1.created_at = true := by
  simp only [applyDateFrom, bne_iff_ne, ne_eq, hne,
    not_false_eq_true, if_true, hp, List.mem_filter] at h
  exact h.2

/-- Rows surviving an applied upper-bound filter were created at or
before the end of the bound's day. -/
theorem mem_applyDateTo {fromiso : String → Option PyDateTime} {s : String}
    {d : PyDateTime} (hp : fromiso s = some d) (hne : s ≠ "")
    (l : List (Post × User)) {pu : Post × User}
    (h : pu ∈ applyDateTo fromiso (some s) l) :
    PyDateTime.le pu.1.created_at d.dayEnd = true := by
  simp only [applyDateTo, bne_iff_ne, ne_eq, hne,
    not_false_eq_true, if_true, hp, List.mem_filter] at h
  exact h.2

/-- Rows surviving an applied and successfully evaluated minimum-likes
filter have at least the converted number of likes. -/
theorem mem_applyMinLikes {isdig : String → Bool} {toint : String → Option Nat}
    {s : String} {n : Nat} (hd : isdig s = true) (hne : s ≠ "")
    (ht : toint s = some n) {l rows2 : List DiscoverRow}
    (h : applyMinLikes isdig toint (some s) l = some rows2) {r : DiscoverRow}
    (hr : r ∈ rows2) : n ≤ r.likes_count := by
  have hcond : (s != "" && isdig s) = true := by
    simp [hd, bne_iff_ne, hne]
  simp only [applyMinLikes, hcond] at h
  rw [if_pos trivial, ht] at h
  simp only [Option.some.injEq] at h
  subst h
  rcases List.mem_filter.mp hr with ⟨hmem, hle⟩
  exact of_decide_eq_true hle

/-- Claim C3: when both date parameters are supplied and parse, every
post of the discover response was created within the inclusive
day-granularity range they span; and when the min_likes parameter is
supplied as a digit string, every post of the response has at least that
many distinct likes. -/
theorem c3_discover_filters (db : DB) (p : DiscoverParams) :
    (∀ sF dF sT dT, p.date_from = some sF → pyFromIsoformat sF = some dF →
      p.date_to = some sT → pyFromIsoformat sT = some dT →
      ∀ r ∈ (get_discover_posts db p).2,
        PyDateTime.le dF.dayStart r.post.created_at = true ∧
        PyDateTime.le r.post.created_at dT.dayEnd = true) ∧
    (∀ sM, p.min_likes = some sM → pyIsdigit sM = true →
      ∀ r ∈ (get_discover_posts db p).2, pyInt sM ≤ r.likes_count) := by
  constructor
  · intro sF dF sT dT hF hpF hT hpT r hr
    simp only [get_discover_posts, get_discover_posts_with] at hr
    split at hr
    · simp at hr
    · rename_i rows2 hml
      have h1 := ((List.perm_insertionSort _ _).mem_iff).mp ((List.take_sublist _ _).subset hr)
      have h2 := applyMinLikes_some_subset _ _ _ hml h1
      rcases List.mem_map.mp h2 with ⟨pu, hpu, hmk⟩
      rw [hF, hT] at hpu
      have h3 := applyAuthor_subset _ _ hpu
      have hTo := mem_applyDateTo hpT (pyFromIsoformat_ne_empty hpT) _ h3
      have h4 := applyDateTo_subset _ _ _ h3
      have hFrom := mem_applyDateFrom hpF (pyFromIsoformat_ne_empty hpF) _ h4
      subst hmk
      exact ⟨hFrom, hTo⟩
  · intro sM hM hMd r hr
    simp only [get_discover_posts, get_discover_posts_with] at hr
    rw [hM] at hr
    split at hr
    · simp at hr
    · rename_i rows2 hml
      have h1 := ((List.perm_insertionSort _ _).mem_iff).mp ((List.take_sublist _ _).subset hr)
      exact mem_applyMinLikes hMd (pyIsdigit_ne_empty hMd) rfl hml h1

/-- Discover-request parameters used for concrete evaluation: both dates
supplied and parseable, min_likes a digit string. -/
def discoverParamsW : DiscoverParams :=
  { date_from := some "2024-01-10", date_to := some "2024-01-20",
    min_likes := some "1", author := none }

/-- The row the discover query returns on the sample database. -/
def rowW : DiscoverRow :=
  { post := post1, author := alice, likes_count := 1, comments_count := 0 }

/-- Concrete instance of claim C3: on the sample database, the returned
row is inside the requested day range and meets the minimum like count. -/
theorem c3_discover_filters_witness :
    (PyDateTime.le (PyDateTime.dayStart
        { year := 2024, month := 1, day := 10, hour := 0, minute := 0,
          second := 0, microsecond := 0 }) rowW.post.created_at = true ∧
     PyDateTime.le rowW.post.created_at (PyDateTime.dayEnd
        { year := 2024, month := 1, day := 20, hour := 0, minute := 0,
          second := 0, microsecond := 0 }) = true) ∧
    pyInt "1" ≤ rowW.likes_count :=
  have h := c3_discover_filters dbSample discoverParamsW
  ⟨h.1 "2024-01-10" _ "2024-01-20" _ rfl (by decide) rfl (by decide) rowW (by decide),
   h.2 "1" rfl (by decide) rowW (by decide)⟩

/-- A lower-bound parameter on which the parser raises is skipped
entirely. -/
theorem applyDateFrom_invalid {fromiso : String → Option PyDateTime} {s : String}
    (h : fromiso s = none) (l : List (Post × User)) :
    applyDateFrom fromiso (some s) l = l := by
  by_cases he : s = ""
  · subst he
    simp [applyDateFrom]
  · simp [applyDateFrom, he, h]

/-- An upper-bound parameter on which the parser raises is skipped
entirely. -/
theorem applyDateTo_invalid {fromiso : String → Option PyDateTime} {s : String}
    (h : fromiso s = none) (l : List (Post × User)) :
    applyDateTo fromiso (some s) l = l := by
  by_cases he : s = ""
  · subst he
    simp [applyDateTo]
  · simp [applyDateTo, he, h]

/-- A min_likes parameter rejected by the isdigit guard is skipped
entirely; `int` is never evaluated on it. -/
theorem applyMinLikes_skip {isdig : String → Bool} {toint : String → Option Nat}
    {s : String} (h : isdig s = false) (l : List DiscoverRow) :
    applyMinLikes isdig toint (some s) l = some l := by
  simp [applyMinLikes, h]

/-- An absent lower-bound parameter applies no filter. -/
theorem applyDateFrom_none (fromiso : String → Option PyDateTime)
    (l : List (Post × User)) : applyDateFrom fromiso none l = l := rfl

/-- An absent upper-bound parameter applies no filter. -/
theorem applyDateTo_none (fromiso : String → Option PyDateTime)
    (l : List (Post × User)) : applyDateTo fromiso none l = l := rfl

/-- An absent min_likes parameter applies no filter and cannot fail. -/
theorem applyMinLikes_none (isdig : String → Bool) (toint : String → Option Nat)
    (l : List DiscoverRow) : applyMinLikes isdig toint none l = some l := rfl

/-- Claim C10: whatever verdicts the standard library returns, a
date_from or date_to value on which `fromisoformat` raises `ValueError`
is silently ignored — the response equals the response with the
parameter absent — and likewise a min_likes value whose `isdigit` is
false; the request with the ignored min_likes answers 200, as does the
request with an ignored date bound and no min_likes parameter. -/
theorem c10_discover_ignores_invalid (fromiso : String → Option PyDateTime)
    (isdig : String → Bool) (toint : String → Option Nat)
    (db : DB) (p : DiscoverParams) (sD sM : String)
    (hD : fromiso sD = none) (hM : isdig sM = false) :
    get_discover_posts_with fromiso isdig toint db { p with date_from := some sD } =
      get_discover_posts_with fromiso isdig toint db { p with date_from := none } ∧
    get_discover_posts_with fromiso isdig toint db { p with date_to := some sD } =
      get_discover_posts_with fromiso isdig toint db { p with date_to := none } ∧
    get_discover_posts_with fromiso isdig toint db { p with min_likes := some sM } =
      get_discover_posts_with fromiso isdig toint db { p with min_likes := none } ∧
    (get_discover_posts_with fromiso isdig toint db
      { p with min_likes := some sM }).1 = 200 ∧
    (get_discover_posts_with fromiso isdig toint db
      { p with date_from := some sD, min_likes := none }).1 = 200 ∧
    (get_discover_posts_with fromiso isdig toint db
      { p with date_to := some sD, min_likes := none }).1 = 200 := by
  refine ⟨?_, ?_, ?_, ?_, ?_, ?_⟩
  · simp only [get_discover_posts_with, applyDateFrom_invalid hD, applyDateFrom_none]
  · simp only [get_discover_posts_with, applyDateTo_invalid hD, applyDateTo_none]
  · simp only [get_discover_posts_with, applyMinLikes_skip hM, applyMinLikes_none]
  · simp only [get_discover_posts_with, applyMinLikes_skip hM]
  · simp only [get_discover_posts_with, applyDateFrom_invalid hD, applyMinLikes_none]
  · simp only [get_discover_posts_with, applyDateTo_invalid hD, applyMinLikes_none]

/-- Concrete instance of claim C10, at the reference standard-library
model: the strings "banana" and "2x" leave the sample discover response
unchanged, and the requests answer 200. -/
theorem c10_discover_ignores_invalid_witness :
    get_discover_posts dbSample
      { date_from := some "banana", date_to := none, min_likes := none, author := none } =
      get_discover_posts dbSample
        { date_from := none, date_to := none, min_likes := none, author := none } ∧
    get_discover_posts dbSample
      { date_from := none, date_to := some "banana", min_likes := none, author := none } =
      get_discover_posts dbSample
        { date_from := none, date_to := none, min_likes := none, author := none } ∧
    get_discover_posts dbSample
      { date_from := none, date_to := none, min_likes := some "2x", author := none } =
      get_discover_posts dbSample
        { date_from := none, date_to := none, min_likes := none, author := none } ∧
    (get_discover_posts dbSample
      { date_from := none, date_to := none, min_likes := some "2x", author := none }).1 = 200 ∧
    (get_discover_posts dbSample
      { date_from := some "banana", date_to := none, min_likes := none, author := none }).1 = 200 ∧
    (get_discover_posts dbSample
      { date_from := none, date_to := some "banana", min_likes := none, author := none }).1 = 200 :=
  c10_discover_ignores_invalid pyFromIsoformat pyIsdigit (fun s => some (pyInt s))
    dbSample { date_from := none, date_to := none, min_likes := none, author := none }
    "banana" "2x" (by decide) (by decide)

/-- The row the top-posts query returns on the sample database. -/
def topRowW : TopRow :=
  { post := post1, author := alice, likes_count := 1, comments_count := 0,
    engagement_score := 1 }

/-- Concrete instance of claim C4: the sample top-posts response fits in
10 rows and its row's score is the like count plus the comment count. -/
theorem c4_top_posts_ordered_witness :
    (get_top_posts dbSample).2.length ≤ 10 ∧
    topRowW.engagement_score =
      postLikesCount dbSample topRowW.post.post_id +
        postCommentsCount dbSample topRowW.post.post_id :=
  have h := c4_top_posts_ordered dbSample
  ⟨h.2.1, (h.2.2.2 topRowW (by decide)).1⟩

/-- The group row the engagement-by-date query returns on the sample
database for user 1. -/
def engRowW : EngagementRow :=
  engagementRowFor dbSample 1 { year := 2024, month := 1, day := 15 }

/-- Concrete instance of claim C8: the sample engagement response fits in
30 rows and its row is the aggregate of user 1's posts of that date. -/
theorem c8_engagement_by_date_witness :
    (get_engagement_by_date dbSample 1).2.length ≤ 30 ∧
    ((∃ q ∈ dbSample.posts, q.user_id = 1 ∧ q.created_at.dateOf = engRowW.date) ∧
     engRowW.posts_count =
       (((userPostsOn dbSample 1 engRowW.date).map fun q => q.post_id).dedup).length ∧
     engRowW.likes_count = (((dbSample.likes.filter fun l =>
       (userPostsOn dbSample 1 engRowW.date).any fun q => q.post_id == l.post_id).map fun l =>
         l.like_id).dedup).length ∧
     engRowW.comments_count = (((dbSample.comments.filter fun c =>
       (userPostsOn dbSample 1 engRowW.date).any fun q => q.post_id == c.post_id).map fun c =>
         c.comment_id).dedup).length) :=
  have h := c8_engagement_by_date dbSample 1
  ⟨h.2.1, h.2.2.2 engRowW (by decide)⟩
